import Mathlib

/-!
Shallow embedding of `segmentation_models_pytorch/efficientunetplusplus/model.py`.

The file defines the class `EfficientUnetPlusPlus(SegmentationModel)` whose
constructor wires four library sub-modules together (an encoder obtained from
`get_encoder`, an `EfficientUnetPlusPlusDecoder`, a `SegmentationHead` and an
optional `ClassificationHead`) and whose `predict` method post-processes the
output of `forward`.

Library components (`get_encoder`, the decoder / head constructors, the
composite `forward`, the torchvision resizing transforms) are NOT part of the
analysed source file; they are modelled as an explicit environment of
uninterpreted functions that may raise arbitrary exceptions.  What the source
file itself does — order of construction, which arguments it passes, its own
unguarded indexing, its own name-resolution errors — is embedded faithfully.

Machine note on the source module's imports (lines 1-6 of model.py): the module
imports `typing`, `.decoder`, `..encoders`, `..base` and
`torchvision.transforms`.  It never imports `torch`, yet `predict` refers to
the global names `torch.no_grad`, `torch.softmax` and `torch.sigmoid`; Python
name resolution (local → enclosing → module globals → builtins) therefore
raises `NameError: name 'torch' is not defined` at the first such reference.
-/

/-- Python exceptions, as far as this module can distinguish them.
`libError n` stands for an arbitrary exception raised inside a library
component (encoder/decoder/head constructors, `forward`, the transforms). -/
inductive PyErr where
  /-- `NameError: name 'torch' is not defined` (the module never imports torch). -/
  | nameErrorTorch : PyErr
  /-- `IndexError: list index out of range` (e.g. `decoder_channels[-1]` on `[]`). -/
  | indexError : PyErr
  /-- `TypeError`, e.g. subscripting the bound method `Tensor.size` as `x.size[1]`. -/
  | typeError : PyErr
  /-- an arbitrary exception raised by a library component. -/
  | libError : Nat → PyErr
  deriving DecidableEq, Repr

/-- Torch tensors, modelled as a free algebra over the operations `predict`
applies; the claims are about WHICH library operation is applied, not about
its numerics, so the operations are uninterpreted constructors. -/
inductive Tensor where
  /-- an opaque input tensor. -/
  | input : Nat → Tensor
  /-- `torch.softmax(t, dim=d)`. -/
  | softmax : Tensor → Nat → Tensor
  /-- `torch.sigmoid(t)`. -/
  | sigmoid : Tensor → Tensor
  /-- `t.squeeze(d)`. -/
  | squeeze : Tensor → Nat → Tensor
  /-- `t.cpu()`. -/
  | cpu : Tensor → Tensor
  deriving DecidableEq, Repr

/-- The `activation` argument of the constructor: `Optional[Union[str, callable]]`;
it is forwarded verbatim to the `SegmentationHead` constructor. -/
inductive ActSpec where
  | byName : String → ActSpec
  | callableObj : Nat → ActSpec
  deriving DecidableEq, Repr

/-- Opaque stand-in for the `aux_params` dict, forwarded verbatim
(`**aux_params`) to the `ClassificationHead` constructor; no claim inspects
its contents. -/
structure AuxParams where
  token : Nat
  deriving DecidableEq, Repr

/-- The encoder object returned by `get_encoder`; the analysed module reads
only its `out_channels` attribute. -/
structure Encoder where
  out_channels : List Nat
  deriving DecidableEq, Repr

/-- The keyword arguments `EfficientUnetPlusPlus.__init__` passes to the
`EfficientUnetPlusPlusDecoder` constructor (model.py lines 79-85). -/
structure DecoderArgs where
  encoder_channels : List Nat
  decoder_channels : List Nat
  n_blocks : Nat
  squeeze_ratio : Nat
  expansion_ratio : Nat
  deriving DecidableEq, Repr

/-- The keyword arguments passed to the `SegmentationHead` constructor
(model.py lines 87-92). -/
structure SegHeadArgs where
  in_channels : Nat
  out_channels : Nat
  activation : Option ActSpec
  kernel_size : Nat
  deriving DecidableEq, Repr

/-- The arguments passed to the `ClassificationHead` constructor
(model.py lines 95-97): `in_channels=self.encoder.out_channels[-1], **aux_params`. -/
structure ClsHeadArgs where
  in_channels : Nat
  aux : AuxParams
  deriving DecidableEq, Repr

/-- The constructed `EfficientUnetPlusPlus` object: the attributes `__init__`
sets on `self`.  Sub-modules are represented by the constructor arguments they
were built from (their internals are library code).  `training` is the
`nn.Module` mode flag (`True` after construction; `eval()` sets it `False`). -/
structure EfficientUnetPlusPlus where
  classes : Nat
  encoder : Encoder
  decoder : DecoderArgs
  segmentation_head : SegHeadArgs
  classification_head : Option ClsHeadArgs
  name : String
  training : Bool
  deriving DecidableEq, Repr

/-- The library environment seen by `__init__`: `get_encoder` produces an
encoder or raises, and each sub-module constructor may raise on the arguments
it receives (their validation, if any, lives in library code outside the
analysed file). -/
structure InitEnv where
  get_encoder : String → Nat → Nat → Option String → Except PyErr Encoder
  decoder_raises : DecoderArgs → Option PyErr
  seg_head_raises : SegHeadArgs → Option PyErr
  cls_head_raises : ClsHeadArgs → Option PyErr

/-- Embedding of `EfficientUnetPlusPlus.__init__` (model.py lines 57-102),
statement by statement and in source order:
`self.classes = classes`; `self.encoder = get_encoder(encoder_name,
in_channels=in_channels, depth=encoder_depth, weights=encoder_weights)`;
`self.decoder = EfficientUnetPlusPlusDecoder(encoder_channels=
self.encoder.out_channels, decoder_channels=decoder_channels,
n_blocks=encoder_depth, squeeze_ratio=squeeze_ratio,
expansion_ratio=expansion_ratio)`; `self.segmentation_head =
SegmentationHead(in_channels=decoder_channels[-1], out_channels=classes,
activation=activation, kernel_size=3)`; then the `aux_params` branch building
`self.classification_head`, and `self.name = "EfficientUNet++-{}".format(
encoder_name)`.  `decoder_channels[-1]` is the unguarded Python indexing: it
raises `IndexError` on an empty list, as does `self.encoder.out_channels[-1]`.
The final `self.initialize()` call only (re)initialises layer weights inside
the already-built sub-modules and sets no attribute on `self`.
The function performs NO validation of its own: no `if`/`raise` statement in
the source compares `encoder_depth` with `len(decoder_channels)` or checks any
documented range. -/
def EfficientUnetPlusPlus.init (env : InitEnv) (encoder_name : String)
    (encoder_depth : Nat) (encoder_weights : Option String)
    (decoder_channels : List Nat) (squeeze_ratio : Nat) (expansion_ratio : Nat)
    (in_channels : Nat) (classes : Nat) (activation : Option ActSpec)
    (aux_params : Option AuxParams) : Except PyErr EfficientUnetPlusPlus :=
  match env.get_encoder encoder_name in_channels encoder_depth encoder_weights with
  | Except.error e => Except.error e
  | Except.ok encoder =>
    match env.decoder_raises
        { encoder_channels := encoder.out_channels
          decoder_channels := decoder_channels
          n_blocks := encoder_depth
          squeeze_ratio := squeeze_ratio
          expansion_ratio := expansion_ratio } with
    | some e => Except.error e
    | none =>
      match decoder_channels.getLast? with
      | none => Except.error PyErr.indexError
      | some lastDec =>
        match env.seg_head_raises
            { in_channels := lastDec
              out_channels := classes
              activation := activation
              kernel_size := 3 } with
        | some e => Except.error e
        | none =>
          match aux_params with
          | some auxp =>
            match encoder.out_channels.getLast? with
            | none => Except.error PyErr.indexError
            | some lastEnc =>
              match env.cls_head_raises { in_channels := lastEnc, aux := auxp } with
              | some e => Except.error e
              | none =>
                Except.ok
                  { classes := classes
                    encoder := encoder
                    decoder :=
                      { encoder_channels := encoder.out_channels
                        decoder_channels := decoder_channels
                        n_blocks := encoder_depth
                        squeeze_ratio := squeeze_ratio
                        expansion_ratio := expansion_ratio }
                    segmentation_head :=
                      { in_channels := lastDec
                        out_channels := classes
                        activation := activation
                        kernel_size := 3 }
                    classification_head := some { in_channels := lastEnc, aux := auxp }
                    name := "EfficientUNet++-" ++ encoder_name
                    training := true }
          | none =>
            Except.ok
              { classes := classes
                encoder := encoder
                decoder :=
                  { encoder_channels := encoder.out_channels
                    decoder_channels := decoder_channels
                    n_blocks := encoder_depth
                    squeeze_ratio := squeeze_ratio
                    expansion_ratio := expansion_ratio }
                segmentation_head :=
                  { in_channels := lastDec
                    out_channels := classes
                    activation := activation
                    kernel_size := 3 }
                classification_head := none
                name := "EfficientUNet++-" ++ encoder_name
                training := true }

/-- The library environment seen by `predict`: the composite
`SegmentationModel.forward` (base-class code outside the analysed file) and
the torchvision pipeline `Compose([ToPILImage(), Resize(sz), ToTensor()])`
applied to a tensor; either may raise. -/
structure PredictEnv where
  forward : EfficientUnetPlusPlus → Tensor → Except PyErr Tensor
  apply_tf : Nat → Tensor → Except PyErr Tensor

/-- Resolution of the module-global name `torch` inside `predict`:
model.py imports `typing`, `.decoder`, `..encoders`, `..base` and
`torchvision.transforms` only (lines 1-6), so looking up `torch` raises
`NameError: name 'torch' is not defined`. -/
def lookup_torch : Except PyErr Unit := Except.error PyErr.nameErrorTorch

/-- Lines 120-123 of model.py, the branch selecting the normalisation:
`probs = torch.softmax(output, dim=1) if self.classes > 1 else
torch.sigmoid(output)` (written as an if/else statement in the source). -/
def postprocess (classes : Nat) (output : Tensor) : Tensor :=
  if classes > 1 then Tensor.softmax output 1 else Tensor.sigmoid output

/-- The argument of `transforms.Resize` at line 129: the source writes
`x.size[1]`.  For a torch tensor `x`, `x.size` is the BOUND METHOD
`Tensor.size`, not a sequence, so subscripting it raises `TypeError`
(the spatial size would have been `x.size()[2:]`, and `x.size()[1]` is the
channel count, not a spatial size). -/
def resize_arg (_x : Tensor) : Except PyErr Nat :=
  Except.error PyErr.typeError

/-- The body of `predict` from the `with torch.no_grad():` block onward
(model.py lines 117-135), under the counterfactual that the name `torch`
resolved: `output = self.forward(x)`; the softmax/sigmoid branch; `probs =
probs.squeeze(0)`; `tf = transforms.Compose([transforms.ToPILImage(),
transforms.Resize(x.size[1]), transforms.ToTensor()])` — constructing
`Resize(x.size[1])` evaluates `x.size[1]` here — and `full_mask =
tf(probs.cpu())`, which is returned.  The first component counts the
invocations of `self.forward`. -/
def predict_with_torch (env : PredictEnv) (m : EfficientUnetPlusPlus)
    (x : Tensor) : Nat × Except PyErr Tensor :=
  match env.forward m x with
  | Except.error e => (1, Except.error e)
  | Except.ok output =>
    let probs := postprocess m.classes output
    let probs2 := Tensor.squeeze probs 0
    match resize_arg x with
    | Except.error e => (1, Except.error e)
    | Except.ok sz => (1, env.apply_tf sz (Tensor.cpu probs2))

/-- The outcome of a call to `predict`: the model state after the call, how
many times `self.forward` was invoked, and the returned value or the raised
exception. -/
structure PredictOut where
  model : EfficientUnetPlusPlus
  forward_calls : Nat
  result : Except PyErr Tensor
  deriving Repr

/-- Embedding of `EfficientUnetPlusPlus.predict` (model.py lines 104-135), in
source order: `if self.training: self.eval()` (which clears the `training`
flag), then the `with torch.no_grad():` statement, whose first action is to
resolve the module-global name `torch` — which fails with `NameError`, so the
rest of the body never runs (see `predict_with_torch` for that rest). -/
def EfficientUnetPlusPlus.predict (env : PredictEnv)
    (m : EfficientUnetPlusPlus) (x : Tensor) : PredictOut :=
  let m1 := if m.training then { m with training := false } else m
  match lookup_torch with
  | Except.error e => { model := m1, forward_calls := 0, result := Except.error e }
  | Except.ok _ =>
    let r := predict_with_torch env m1 x
    { model := m1, forward_calls := r.1, result := r.2 }

/-- A concrete encoder with the out_channels of timm-efficientnet-b5 at
depth 5, used for witnesses. -/
def sample_encoder : Encoder := { out_channels := [3, 48, 40, 64, 176, 512] }

/-- The default `encoder_name` argument of `__init__`. -/
def default_encoder_name : String := "timm-efficientnet-b5"

/-- A benign library environment: `get_encoder` succeeds with
`sample_encoder` and no sub-module constructor raises, isolating the
behaviour of the analysed module itself. -/
def benignEnv : InitEnv :=
  { get_encoder := fun _ _ _ _ => Except.ok sample_encoder
    decoder_raises := fun _ => none
    seg_head_raises := fun _ => none
    cls_head_raises := fun _ => none }

/-- A benign predict-time environment: `forward` and the transforms pipeline
always succeed. -/
def benignPredictEnv : PredictEnv :=
  { forward := fun _ _ => Except.ok (Tensor.input 99)
    apply_tf := fun sz t => Except.ok (Tensor.squeeze (Tensor.cpu t) sz) }

/-- C1 counterexample: with every library constructor succeeding, the
invocation `EfficientUnetPlusPlus(encoder_depth=5, decoder_channels=[16])`
violates the documented constraint that the length of `decoder_channels`
equal `encoder_depth`, yet `__init__` completes successfully — no error is
raised by this module before (or while) the sub-modules are wired, refuting
the claim that this module rejects such arguments. -/
theorem C1_counterexample :
    ∃ m, EfficientUnetPlusPlus.init benignEnv default_encoder_name 5 none
      [16] 1 1 3 1 none none = Except.ok m :=
  ⟨_, rfl⟩

/-- C1 amended: `EfficientUnetPlusPlus.__init__` performs no argument
validation of its own — every error a construction can produce originates
either in a library sub-module constructor (`get_encoder`, the decoder, the
segmentation head, the classification head) or in the unguarded `[-1]`
indexing (an `IndexError`); constraint-violating argument values are passed
through to the sub-modules, never rejected beforehand by this module. -/
theorem C1_no_own_validation (env : InitEnv) (n : String) (d : Nat)
    (w : Option String) (dch : List Nat) (sq ex ic cl : Nat)
    (act : Option ActSpec) (aux : Option AuxParams) (e : PyErr)
    (h : EfficientUnetPlusPlus.init env n d w dch sq ex ic cl act aux =
      Except.error e) :
    env.get_encoder n ic d w = Except.error e
    ∨ (∃ dargs, env.decoder_raises dargs = some e)
    ∨ e = PyErr.indexError
    ∨ (∃ sargs, env.seg_head_raises sargs = some e)
    ∨ (∃ cargs, env.cls_head_raises cargs = some e) := by
  unfold EfficientUnetPlusPlus.init at h
  split at h
  next e1 heq =>
    injection h with h2
    subst h2
    exact Or.inl heq
  next encoder heq =>
    split at h
    next e1 hdec =>
      injection h with h2
      subst h2
      exact Or.inr (Or.inl ⟨_, hdec⟩)
    next hdec =>
      split at h
      next hlast =>
        injection h with h2
        subst h2
        exact Or.inr (Or.inr (Or.inl rfl))
      next lastDec hlast =>
        split at h
        next e1 hseg =>
          injection h with h2
          subst h2
          exact Or.inr (Or.inr (Or.inr (Or.inl ⟨_, hseg⟩)))
        next hseg =>
          split at h
          next auxp =>
            split at h
            next henclast =>
              injection h with h2
              subst h2
              exact Or.inr (Or.inr (Or.inl rfl))
            next lastEnc henclast =>
              split at h
              next e1 hcls =>
                injection h with h2
                subst h2
                exact Or.inr (Or.inr (Or.inr (Or.inr ⟨_, hcls⟩)))
              next hcls =>
                cases h
          next =>
            cases h

/-- A library environment whose `get_encoder` raises an arbitrary library
exception; the other constructors succeed. -/
def errEncEnv : InitEnv :=
  { get_encoder := fun _ _ _ _ => Except.error (PyErr.libError 3)
    decoder_raises := fun _ => none
    seg_head_raises := fun _ => none
    cls_head_raises := fun _ => none }

/-- Witness for C1's amended theorem: in an environment whose `get_encoder`
raises, the resulting construction error is accounted for by the
sub-module disjunction. -/
theorem C1_no_own_validation_witness :
    errEncEnv.get_encoder default_encoder_name 3 5 none =
      Except.error (PyErr.libError 3)
    ∨ (∃ dargs, errEncEnv.decoder_raises dargs = some (PyErr.libError 3))
    ∨ (PyErr.libError 3 = PyErr.indexError)
    ∨ (∃ sargs, errEncEnv.seg_head_raises sargs = some (PyErr.libError 3))
    ∨ (∃ cargs, errEncEnv.cls_head_raises cargs = some (PyErr.libError 3)) :=
  C1_no_own_validation errEncEnv default_encoder_name 5 none
    [256, 128, 64, 32, 16] 1 1 3 1 none none (PyErr.libError 3) rfl

/-- C2: for every successful construction, the channel dimensions are wired
as the claim states: the decoder receives `encoder_channels =
self.encoder.out_channels` and `n_blocks = encoder_depth`; the segmentation
head receives `in_channels = decoder_channels[-1]` and `out_channels =
classes`; and the classification head, when present, receives
`in_channels = self.encoder.out_channels[-1]`. -/
theorem C2_channel_wiring (env : InitEnv) (n : String) (d : Nat)
    (w : Option String) (dch : List Nat) (sq ex ic cl : Nat)
    (act : Option ActSpec) (aux : Option AuxParams)
    (m : EfficientUnetPlusPlus)
    (h : EfficientUnetPlusPlus.init env n d w dch sq ex ic cl act aux =
      Except.ok m) :
    m.decoder.encoder_channels = m.encoder.out_channels
    ∧ m.decoder.n_blocks = d
    ∧ dch.getLast? = some m.segmentation_head.in_channels
    ∧ m.segmentation_head.out_channels = cl
    ∧ (∀ ch, m.classification_head = some ch →
        m.encoder.out_channels.getLast? = some ch.in_channels) := by
  unfold EfficientUnetPlusPlus.init at h
  split at h
  next e1 heq => cases h
  next encoder heq =>
    split at h
    next e1 hdec => cases h
    next hdec =>
      split at h
      next hlast => cases h
      next lastDec hlast =>
        split at h
        next e1 hseg => cases h
        next hseg =>
          split at h
          next auxp =>
            split at h
            next henclast => cases h
            next lastEnc henclast =>
              split at h
              next e1 hcls => cases h
              next hcls =>
                injection h with h2
                subst h2
                refine ⟨rfl, rfl, hlast, rfl, ?_⟩
                intro ch hch
                injection hch with h3
                subst h3
                exact henclast
          next =>
            injection h with h2
            subst h2
            refine ⟨rfl, rfl, hlast, rfl, ?_⟩
            intro ch hch
            cases hch

/-- The model built by `__init__` in the benign environment with
`decoder_channels=(256,128,64,32,16)`, `classes=1` and
`aux_params={token := 0}`; used for witnesses. -/
def sample_model_aux : EfficientUnetPlusPlus :=
  { classes := 1
    encoder := sample_encoder
    decoder :=
      { encoder_channels := [3, 48, 40, 64, 176, 512]
        decoder_channels := [256, 128, 64, 32, 16]
        n_blocks := 5
        squeeze_ratio := 1
        expansion_ratio := 1 }
    segmentation_head :=
      { in_channels := 16
        out_channels := 1
        activation := none
        kernel_size := 3 }
    classification_head := some { in_channels := 512, aux := { token := 0 } }
    name := "EfficientUNet++-" ++ default_encoder_name
    training := true }

/-- `sample_model_aux` is indeed what `__init__` constructs on these
arguments (evidence that the witness input is reachable). -/
theorem sample_model_aux_built :
    EfficientUnetPlusPlus.init benignEnv default_encoder_name 5 none
      [256, 128, 64, 32, 16] 1 1 3 1 none (some { token := 0 }) =
      Except.ok sample_model_aux := rfl

/-- Witness for C2 at a concrete successful construction. -/
theorem C2_channel_wiring_witness :
    sample_model_aux.decoder.encoder_channels =
      sample_model_aux.encoder.out_channels
    ∧ sample_model_aux.decoder.n_blocks = 5
    ∧ ([256, 128, 64, 32, 16] : List Nat).getLast? =
      some sample_model_aux.segmentation_head.in_channels
    ∧ sample_model_aux.segmentation_head.out_channels = 1
    ∧ (∀ ch, sample_model_aux.classification_head = some ch →
        sample_model_aux.encoder.out_channels.getLast? = some ch.in_channels) :=
  C2_channel_wiring benignEnv default_encoder_name 5 none
    [256, 128, 64, 32, 16] 1 1 3 1 none (some { token := 0 })
    sample_model_aux rfl

/-- C3: the auxiliary classification head is controlled solely by
`aux_params`: when `aux_params` is `None` the constructed model's
`classification_head` is `None`, and when `aux_params` is given the model's
`classification_head` is a `ClassificationHead` built with `in_channels`
equal to the encoder's final feature channels
(`self.encoder.out_channels[-1]`) and the `aux_params` dict forwarded. -/
theorem C3_classification_head_iff_aux (env : InitEnv) (n : String) (d : Nat)
    (w : Option String) (dch : List Nat) (sq ex ic cl : Nat)
    (act : Option ActSpec) (aux : Option AuxParams)
    (m : EfficientUnetPlusPlus)
    (h : EfficientUnetPlusPlus.init env n d w dch sq ex ic cl act aux =
      Except.ok m) :
    (aux = none → m.classification_head = none)
    ∧ (∀ auxp, aux = some auxp →
        ∃ lastEnc, m.encoder.out_channels.getLast? = some lastEnc
          ∧ m.classification_head = some { in_channels := lastEnc, aux := auxp }) := by
  unfold EfficientUnetPlusPlus.init at h
  split at h
  next e1 heq => cases h
  next encoder heq =>
    split at h
    next e1 hdec => cases h
    next hdec =>
      split at h
      next hlast => cases h
      next lastDec hlast =>
        split at h
        next e1 hseg => cases h
        next hseg =>
          split at h
          next auxp =>
            split at h
            next henclast => cases h
            next lastEnc henclast =>
              split at h
              next e1 hcls => cases h
              next hcls =>
                injection h with h2
                subst h2
                refine ⟨?_, ?_⟩
                · intro h0
                  cases h0
                · intro auxp2 hap
                  injection hap with h3
                  subst h3
                  exact ⟨lastEnc, henclast, rfl⟩
          next =>
            injection h with h2
            subst h2
            refine ⟨fun _ => rfl, ?_⟩
            intro auxp2 hap
            cases hap

/-- Witness for C3 at a concrete construction with `aux_params` present. -/
theorem C3_classification_head_iff_aux_witness :
    ((some { token := 0 } : Option AuxParams) = none →
      sample_model_aux.classification_head = none)
    ∧ (∀ auxp, (some { token := 0 } : Option AuxParams) = some auxp →
        ∃ lastEnc, sample_model_aux.encoder.out_channels.getLast? = some lastEnc
          ∧ sample_model_aux.classification_head =
            some { in_channels := lastEnc, aux := auxp }) :=
  C3_classification_head_iff_aux benignEnv default_encoder_name 5 none
    [256, 128, 64, 32, 16] 1 1 3 1 none (some { token := 0 })
    sample_model_aux rfl

/-- C9: in an environment where the library constructors themselves raise
nothing (and the encoder has a non-empty `out_channels`), the unguarded
indexing `decoder_channels[-1]` at line 88 decides the outcome: construction
fails with `IndexError` exactly when `decoder_channels` is empty, and
succeeds for every non-empty `decoder_channels`. -/
theorem C9_decoder_channels_nonempty (env : InitEnv) (n : String) (d : Nat)
    (w : Option String) (dch : List Nat) (sq ex ic cl : Nat)
    (act : Option ActSpec) (aux : Option AuxParams) (enc : Encoder)
    (h1 : env.get_encoder n ic d w = Except.ok enc)
    (h2 : ∀ dargs, env.decoder_raises dargs = none)
    (h3 : ∀ sargs, env.seg_head_raises sargs = none)
    (h4 : ∀ cargs, env.cls_head_raises cargs = none)
    (h5 : enc.out_channels ≠ []) :
    (dch = [] →
      EfficientUnetPlusPlus.init env n d w dch sq ex ic cl act aux =
        Except.error PyErr.indexError)
    ∧ (dch ≠ [] →
      ∃ m, EfficientUnetPlusPlus.init env n d w dch sq ex ic cl act aux =
        Except.ok m) := by
  constructor
  · intro hempty
    subst hempty
    simp [EfficientUnetPlusPlus.init, h1, h2]
  · intro hne
    obtain ⟨ld, hld⟩ := Option.isSome_iff_exists.mp (List.getLast?_isSome.mpr hne)
    obtain ⟨le, hle⟩ := Option.isSome_iff_exists.mp (List.getLast?_isSome.mpr h5)
    cases aux with
    | some auxp =>
      simp only [EfficientUnetPlusPlus.init, h1, h2, h3, h4, hld, hle]
      exact ⟨_, rfl⟩
    | none =>
      simp only [EfficientUnetPlusPlus.init, h1, h2, h3, hld]
      exact ⟨_, rfl⟩

/-- Witness for C9, at `decoder_channels = []` in the benign environment:
construction raises `IndexError`. -/
theorem C9_decoder_channels_nonempty_witness :
    (([] : List Nat) = [] →
      EfficientUnetPlusPlus.init benignEnv default_encoder_name 5 none
        [] 1 1 3 1 none none = Except.error PyErr.indexError)
    ∧ (([] : List Nat) ≠ [] →
      ∃ m, EfficientUnetPlusPlus.init benignEnv default_encoder_name 5 none
        [] 1 1 3 1 none none = Except.ok m) :=
  C9_decoder_channels_nonempty benignEnv default_encoder_name 5 none
    [] 1 1 3 1 none none sample_encoder rfl (fun _ => rfl) (fun _ => rfl)
    (fun _ => rfl) (by decide)

/-- What lines 120-123 compute once reached: for `classes > 1` the branch
selects `torch.softmax(output, dim=1)`. -/
theorem postprocess_softmax (c : Nat) (t : Tensor) (h : 1 < c) :
    postprocess c t = Tensor.softmax t 1 := by
  simp [postprocess, h]

/-- What lines 120-123 compute once reached: for `classes ≤ 1` the branch
selects `torch.sigmoid(output)`. -/
theorem postprocess_sigmoid (c : Nat) (t : Tensor) (h : ¬ 1 < c) :
    postprocess c t = Tensor.sigmoid t := by
  simp [postprocess, h]

/-- The model built by `__init__` in the benign environment with
`classes = 2` and no `aux_params`; used as a concrete multi-class model. -/
def sample_model2 : EfficientUnetPlusPlus :=
  { classes := 2
    encoder := sample_encoder
    decoder :=
      { encoder_channels := [3, 48, 40, 64, 176, 512]
        decoder_channels := [256, 128, 64, 32, 16]
        n_blocks := 5
        squeeze_ratio := 1
        expansion_ratio := 1 }
    segmentation_head :=
      { in_channels := 16
        out_channels := 2
        activation := none
        kernel_size := 3 }
    classification_head := none
    name := "EfficientUNet++-" ++ default_encoder_name
    training := true }

/-- `sample_model2` is indeed what `__init__` constructs on these arguments. -/
theorem sample_model2_built :
    EfficientUnetPlusPlus.init benignEnv default_encoder_name 5 none
      [256, 128, 64, 32, 16] 1 1 3 2 none none = Except.ok sample_model2 := rfl

/-- C4: evaluation of `predict` at a failing input.  On the multi-class
model `sample_model2` (`classes = 2`) and input tensor `Tensor.input 0`,
with `forward` and the transforms both able to succeed, `predict` raises
`NameError: name 'torch' is not defined` at `with torch.no_grad():`
(model.py line 117) — before `forward` runs and before the
softmax/sigmoid selection of lines 120-123 is ever applied.  The selection
logic the claim describes is present in the source (see
`postprocess_softmax` / `postprocess_sigmoid`) but is unreachable because
the module never imports `torch`. -/
theorem C4_predict_nameerror_before_normalisation :
    (EfficientUnetPlusPlus.predict benignPredictEnv sample_model2
      (Tensor.input 0)).result = Except.error PyErr.nameErrorTorch := rfl

/-- C5 counterexample: on the single-class model `sample_model_aux` and
input `Tensor.input 7`, with every library component able to succeed,
`predict` raises `NameError` — it returns no PIL-resized mask (nor any
tensor at all), refuting the claim that for every 4D input the resized
mask is what `predict` returns. -/
theorem C5_counterexample :
    (EfficientUnetPlusPlus.predict benignPredictEnv sample_model_aux
      (Tensor.input 7)).result = Except.error PyErr.nameErrorTorch := rfl

/-- C5 amended: the image-resizing pipeline of lines 126-134 is dead code —
every call to `predict` raises `NameError` (the module never imports
`torch`) before the pipeline is built, so `predict` never returns a mask;
moreover the argument the source passes to `transforms.Resize` is
`x.size[1]`, a subscript of the bound method `Tensor.size` (a `TypeError`
as written, and in intent the channel count `x.size()[1]`), not the
input's spatial size. -/
theorem C5_no_resizing_pipeline (env : PredictEnv)
    (m : EfficientUnetPlusPlus) (x : Tensor) :
    resize_arg x = Except.error PyErr.typeError
    ∧ ∀ t, (EfficientUnetPlusPlus.predict env m x).result ≠ Except.ok t := by
  refine ⟨rfl, ?_⟩
  intro t h
  exact Except.noConfusion h

/-- C7: for every environment, model state and input, `predict` raises
`NameError: name 'torch' is not defined` — the module uses `torch.no_grad`,
`torch.softmax` and `torch.sigmoid` but imports only `typing`, the decoder,
the encoders, the base classes and `torchvision.transforms`, never `torch`
itself — so no output is ever produced. -/
theorem C7_predict_raises_nameerror (env : PredictEnv)
    (m : EfficientUnetPlusPlus) (x : Tensor) :
    (EfficientUnetPlusPlus.predict env m x).result =
      Except.error PyErr.nameErrorTorch := rfl

/-- C8: `predict`'s lasting side effect on the model: after any call the
model is in eval mode (`training = false`), whether or not it was training
before, and every other attribute (`classes`, `encoder`, `decoder`, the
heads, `name`) is unchanged — the post-call state is exactly the pre-call
state with `training` cleared. -/
theorem C8_predict_eval_mode_only (env : PredictEnv)
    (m : EfficientUnetPlusPlus) (x : Tensor) :
    (EfficientUnetPlusPlus.predict env m x).model =
      { m with training := false } := by
  cases m with
  | mk cls enc dec seg clsh nm tr => cases tr <;> rfl

/-- C10: evaluation of `predict` on an arbitrary environment, model and
input: `self.forward` is invoked ZERO times — the `NameError` at
`with torch.no_grad():` (model.py line 117) is raised before the call
`output = self.forward(x)` at line 118 — contradicting the claim that every
call to `predict` invokes `forward` exactly once. -/
theorem C10_forward_never_invoked (env : PredictEnv)
    (m : EfficientUnetPlusPlus) (x : Tensor) :
    (EfficientUnetPlusPlus.predict env m x).forward_calls = 0 := rfl

/-- A library environment whose decoder constructor raises; `get_encoder`
succeeds. -/
def errDecEnv : InitEnv :=
  { get_encoder := fun _ _ _ _ => Except.ok sample_encoder
    decoder_raises := fun _ => some (PyErr.libError 4)
    seg_head_raises := fun _ => none
    cls_head_raises := fun _ => none }

/-- A predict-time environment whose `forward` raises. -/
def errForwardEnv : PredictEnv :=
  { forward := fun _ _ => Except.error (PyErr.libError 5)
    apply_tf := fun _ t => Except.ok t }

/-- C6: the module contains no failure-recovery logic — no statement of
`__init__` or `predict` catches an exception.  Consequently (i) an
exception raised by `get_encoder` is returned unchanged by `__init__`;
(ii) an exception raised by the decoder constructor (on exactly the
arguments `__init__` passes it) is returned unchanged; (iii) in the body
guarded by `with torch.no_grad():` (the code of lines 117-135, embedded as
`predict_with_torch`), an exception raised by `forward` propagates
unchanged; and (iv) when `forward` succeeds there, the `TypeError` arising
while the resizing transforms are being built propagates unchanged. -/
theorem C6_no_exception_handling :
    (∀ (env : InitEnv) (n : String) (d : Nat) (w : Option String)
        (dch : List Nat) (sq ex ic cl : Nat) (act : Option ActSpec)
        (aux : Option AuxParams) (e : PyErr),
      env.get_encoder n ic d w = Except.error e →
      EfficientUnetPlusPlus.init env n d w dch sq ex ic cl act aux =
        Except.error e)
    ∧ (∀ (env : InitEnv) (n : String) (d : Nat) (w : Option String)
        (dch : List Nat) (sq ex ic cl : Nat) (act : Option ActSpec)
        (aux : Option AuxParams) (enc : Encoder) (e : PyErr),
      env.get_encoder n ic d w = Except.ok enc →
      env.decoder_raises
        { encoder_channels := enc.out_channels
          decoder_channels := dch
          n_blocks := d
          squeeze_ratio := sq
          expansion_ratio := ex } = some e →
      EfficientUnetPlusPlus.init env n d w dch sq ex ic cl act aux =
        Except.error e)
    ∧ (∀ (env : PredictEnv) (m : EfficientUnetPlusPlus) (x : Tensor)
        (e : PyErr),
      env.forward m x = Except.error e →
      (predict_with_torch env m x).2 = Except.error e)
    ∧ (∀ (env : PredictEnv) (m : EfficientUnetPlusPlus) (x : Tensor)
        (out : Tensor),
      env.forward m x = Except.ok out →
      (predict_with_torch env m x).2 = Except.error PyErr.typeError) := by
  refine ⟨?_, ?_, ?_, ?_⟩
  · intro env n d w dch sq ex ic cl act aux e h
    simp only [EfficientUnetPlusPlus.init, h]
  · intro env n d w dch sq ex ic cl act aux enc e henc hdec
    simp only [EfficientUnetPlusPlus.init, henc, hdec]
  · intro env m x e h
    simp only [predict_with_torch, h]
  · intro env m x out h
    simp only [predict_with_torch, h, resize_arg]

/-- Witness for C6: each of the four propagation facts applied at a
concrete environment where the corresponding library component raises
(or, for the transforms, where `forward` succeeds). -/
theorem C6_no_exception_handling_witness :
    EfficientUnetPlusPlus.init errEncEnv default_encoder_name 5 none
      [256, 128, 64, 32, 16] 1 1 3 1 none none =
        Except.error (PyErr.libError 3)
    ∧ EfficientUnetPlusPlus.init errDecEnv default_encoder_name 5 none
      [256, 128, 64, 32, 16] 1 1 3 1 none none =
        Except.error (PyErr.libError 4)
    ∧ (predict_with_torch errForwardEnv sample_model_aux (Tensor.input 1)).2 =
        Except.error (PyErr.libError 5)
    ∧ (predict_with_torch benignPredictEnv sample_model_aux (Tensor.input 2)).2 =
        Except.error PyErr.typeError :=
  ⟨C6_no_exception_handling.1 errEncEnv default_encoder_name 5 none
      [256, 128, 64, 32, 16] 1 1 3 1 none none (PyErr.libError 3) rfl,
   C6_no_exception_handling.2.1 errDecEnv default_encoder_name 5 none
      [256, 128, 64, 32, 16] 1 1 3 1 none none sample_encoder
      (PyErr.libError 4) rfl rfl,
   C6_no_exception_handling.2.2.1 errForwardEnv sample_model_aux
      (Tensor.input 1) (PyErr.libError 5) rfl,
   C6_no_exception_handling.2.2.2 benignPredictEnv sample_model_aux
      (Tensor.input 2) (Tensor.input 99) rfl⟩
